import Mathlib

/-!
Verification of the FOMO Mantle vault agent's reserve-aware rebalancing core.

The definitions below are shallow embeddings of the Python source:
`vault_agent/fomo_integration.py` (policy data model, protocol snapshot,
`_calculate_integrated_allocation`, `_ensure_adequate_reserves`,
`get_protocol_snapshot`) and `vault_agent/APY_agent.py` (`StrategyManager`,
`INITLoopingStrategy.get_current_apy`, `execute_rebalance`) together with
the allocation-sum check of `vault_agent/fastapi_server.py`
(`set_custom_allocation`).  Python floats are modelled as rationals;
Python exceptions as `Except`; the truthiness tests of the source
(`if self.expiry_timestamp:`, `if p.time_to_expiry and ...:`) are embedded
exactly, with `0` and `None` both falsy.
-/

namespace FomoVault

/-- The `PolicyInfo` dataclass of `fomo_integration.py`. -/
structure PolicyInfo where
  policy_id : ℤ
  seller : String
  buyer : Option String
  token : String
  token_symbol : String
  amount : ℚ
  payout_token : String
  payout_amount : ℚ
  duration : ℤ
  upside_share_bps : ℤ
  entry_price : ℚ
  start_timestamp : Option ℤ
  expiry_timestamp : Option ℤ
  state : String
deriving DecidableEq

/-- `PolicyInfo.is_active`: `self.state == "Active"`. -/
def PolicyInfo.is_active (p : PolicyInfo) : Bool :=
  p.state = "Active"

/-- `PolicyInfo.time_to_expiry`: `max(0, expiry − now)` when
`self.expiry_timestamp` is truthy (set and nonzero), else `None`.
`now` stands for `datetime.now().timestamp()`. -/
def PolicyInfo.time_to_expiry (p : PolicyInfo) (now : ℤ) : Option ℤ :=
  match p.expiry_timestamp with
  | none => none
  | some e => if e = 0 then none else some (max 0 (e - now))

/-- `PolicyInfo.required_reserve`: `payout_amount` if active else `0.0`. -/
def PolicyInfo.required_reserve (p : PolicyInfo) : ℚ :=
  if p.is_active then p.payout_amount else 0

/-- The `ProtocolSnapshot` dataclass (timestamp omitted; the clock enters
the calculation as the separate `now` argument). -/
structure ProtocolSnapshot where
  total_policies : ℕ
  active_policies : List PolicyInfo
  open_policies : List PolicyInfo
  total_reserves_required : ℚ
  available_liquidity : ℚ
  pending_settlements : List PolicyInfo
deriving DecidableEq

/-- The three per-strategy APYs gathered by the allocation loop
(`strategy_apys` over `init_looping`, `circuit_vault`, `mnt_staking`). -/
structure StrategyApys where
  init_looping : ℚ
  circuit_vault : ℚ
  mnt_staking : ℚ
deriving DecidableEq

/-- `max(strategy_apys.values())`. -/
def StrategyApys.maxVal (a : StrategyApys) : ℚ :=
  max a.init_looping (max a.circuit_vault a.mnt_staking)

/-- `min(strategy_apys.values())`. -/
def StrategyApys.minVal (a : StrategyApys) : ℚ :=
  min a.init_looping (min a.circuit_vault a.mnt_staking)

/-- The `optimal_allocation` dict: percentage per strategy. -/
structure OptimalAllocation where
  init_looping : ℚ
  circuit_vault : ℚ
  mnt_staking : ℚ
deriving DecidableEq

/-- Sum of the three allocation percentages. -/
def OptimalAllocation.total (a : OptimalAllocation) : ℚ :=
  a.init_looping + a.circuit_vault + a.mnt_staking

/-- Tags for the strings appended to `reasons`, in source order. -/
inductive Reason where
  | insufficientReserves
  | apySpreadDetected
  | policiesExpiringSoon
deriving DecidableEq

/-- The dict returned by `_calculate_integrated_allocation`. -/
structure AllocationStrategy where
  should_rebalance : Bool
  reasons : List Reason
  total_funds : ℚ
  required_reserves : ℚ
  safety_buffer : ℚ
  deployable_funds : ℚ
  current_reserve_ratio : ℚ
  strategy_apys : StrategyApys
  optimal_allocation : OptimalAllocation
  upcoming_expirations : ℕ
deriving DecidableEq

/-- `self.reserve_ratio = 0.15` set in `IntegratedMantleVaultAgent.__init__`. -/
def reserveRatioTarget : ℚ := 15 / 100

/-- The filter of line 305: `p.time_to_expiry and p.time_to_expiry < 3600`.
Python truthiness makes `None` and `0` both fail the first conjunct. -/
def isExpiringSoon (now : ℤ) (p : PolicyInfo) : Bool :=
  match p.time_to_expiry now with
  | none => false
  | some t => !(t = 0 : Bool) && (t < 3600 : Bool)

/-- The `risk_multiplier` block: `0.8` above 10 active policies,
`1.2` below 3, else `1.0`. -/
def riskMultiplier (activePolicyCount : ℕ) : ℚ :=
  if activePolicyCount > 10 then 8 / 10
  else if activePolicyCount < 3 then 12 / 10
  else 1

/-- The `base_allocation` dict: only `init_looping`'s weight `0.45` is
scaled by the risk multiplier. -/
def baseAllocation (activePolicyCount : ℕ) : ℚ × ℚ × ℚ :=
  (45 / 100 * riskMultiplier activePolicyCount, 35 / 100, 20 / 100)

/-- Shallow embedding of `_calculate_integrated_allocation`.  `minThreshold`
is `self.config.MIN_REALLOCATION_THRESHOLD`; `now` is the current Unix time
used by `time_to_expiry`. -/
def calcIntegratedAllocation (snapshot : ProtocolSnapshot) (apys : StrategyApys)
    (minThreshold : ℚ) (now : ℤ) : AllocationStrategy :=
  let total_funds := snapshot.available_liquidity
  let required_reserves := snapshot.total_reserves_required
  let safety_buffer := required_reserves * (2 / 10)
  let total_reserves_needed := required_reserves + safety_buffer
  let deployable_funds := max 0 (total_funds - total_reserves_needed)
  let current_reserve_ratio :=
    if total_funds > 0 then total_reserves_needed / total_funds else 0
  let insufficientReserves : Bool := current_reserve_ratio < reserveRatioTarget
  let apy_spread := StrategyApys.maxVal apys - StrategyApys.minVal apys
  let spreadDetected : Bool := apy_spread > minThreshold
  let upcoming_expirations := snapshot.active_policies.filter (isExpiringSoon now)
  let expiring : Bool := upcoming_expirations.length > 0
  let should_rebalance := insufficientReserves || spreadDetected || expiring
  let reasons :=
    (if insufficientReserves then [Reason.insufficientReserves] else []) ++
    (if spreadDetected then [Reason.apySpreadDetected] else []) ++
    (if expiring then [Reason.policiesExpiringSoon] else [])
  let optimal_allocation :=
    if deployable_funds > 0 then
      let base := baseAllocation snapshot.active_policies.length
      let total_allocation := base.1 + base.2.1 + base.2.2
      OptimalAllocation.mk (base.1 / total_allocation * 100)
        (base.2.1 / total_allocation * 100) (base.2.2 / total_allocation * 100)
    else OptimalAllocation.mk 0 0 0
  { should_rebalance := should_rebalance
    reasons := reasons
    total_funds := total_funds
    required_reserves := required_reserves
    safety_buffer := safety_buffer
    deployable_funds := deployable_funds
    current_reserve_ratio := current_reserve_ratio
    strategy_apys := apys
    optimal_allocation := optimal_allocation
    upcoming_expirations := upcoming_expirations.length }

/-- Helper for concrete test policies: an `Active` policy with the given
payout and expiry; the remaining fields are irrelevant to the claims. -/
def mkActivePolicy (payout : ℚ) (expiry : Option ℤ) : PolicyInfo :=
  { policy_id := 1
    seller := "0xseller"
    buyer := some "0xbuyer"
    token := "0xtoken"
    token_symbol := "WETH"
    amount := 1
    payout_token := "0xusdc"
    payout_amount := payout
    duration := 86400
    upside_share_bps := 1000
    entry_price := 2000
    start_timestamp := some 0
    expiry_timestamp := expiry
    state := "Active" }

/-! ### Reserve top-up (`_ensure_adequate_reserves`) -/

/-- One `withdraw_from_strategy` call issued by the top-up loop, together
with the outcome reported by the strategy. -/
structure WithdrawCall where
  strategy : String
  amount : ℚ
  success : Bool
deriving DecidableEq

/-- The `for strategy_name, apy in strategies_by_apy:` loop of
`_ensure_adequate_reserves`, lines 391-402.  The list carries, per
strategy in iteration order, its name and whether its `withdraw` call
succeeds; the returned list records every call issued. -/
def withdrawLoop (shortfall : ℚ) : ℚ → List (String × Bool) → List WithdrawCall
  | _, [] => []
  | remaining, (name, ok) :: rest =>
    if remaining ≤ 0 then []
    else
      let amt := min remaining (shortfall * (5 / 10))
      WithdrawCall.mk name amt ok ::
        withdrawLoop shortfall (if ok then remaining - amt else remaining) rest

/-- Stable insertion into an APY-ascending list (the comparison key of
`sorted(..., key=lambda x: x[1])`). -/
def insertAscApy (x : String × ℚ) : List (String × ℚ) → List (String × ℚ)
  | [] => [x]
  | y :: ys => if y.2 ≤ x.2 then y :: insertAscApy x ys else x :: y :: ys

/-- Stable sort by ascending APY, embedding
`sorted([(name, apy) ...], key=lambda x: x[1])`. -/
def sortAscApy : List (String × ℚ) → List (String × ℚ)
  | [] => []
  | x :: xs => insertAscApy x (sortAscApy xs)

/-- Shallow embedding of `_ensure_adequate_reserves`: when the current
reserve balance is below the required amount, compute the shortfall, sort
strategies by ascending APY, and run the withdrawal loop; `outcomes` gives
each strategy's `withdraw` success. -/
def ensureAdequateReserves (requiredAmount currentBalance : ℚ)
    (strategyApys : List (String × ℚ)) (outcomes : String → Bool) :
    List WithdrawCall :=
  if currentBalance < requiredAmount then
    let shortfall := requiredAmount - currentBalance
    withdrawLoop shortfall shortfall
      ((sortAscApy strategyApys).map (fun s => (s.1, outcomes s.1)))
  else []

/-- Total of the amounts whose `withdraw` call succeeded (the amounts that
were actually removed from strategies). -/
def successfulTotal (calls : List WithdrawCall) : ℚ :=
  ((calls.filter (fun c => c.success)).map WithdrawCall.amount).sum

/-! ### Strategy manager (`APY_agent.py`, `StrategyManager`) -/

/-- The keys of `self.strategies` in `StrategyManager.__init__`. -/
def registeredStrategies : List String :=
  ["init_looping", "circuit_vault", "mnt_staking"]

/-- The shape of the dict returned by `deposit`/`withdraw`: a `success`
flag and, on failure, an `error` string. -/
structure StrategyResult where
  success : Bool
  error : Option String
deriving DecidableEq

/-- `StrategyManager.deploy_to_strategy`: dispatch to the adapter if the
name is registered, else the structured `Unknown strategy` failure.
`adapters` abstracts the concrete strategies' `deposit` behaviour. -/
def deployToStrategy (adapters : String → ℚ → StrategyResult)
    (strategyName : String) (amount : ℚ) : StrategyResult :=
  if strategyName ∈ registeredStrategies then adapters strategyName amount
  else StrategyResult.mk false (some ("Unknown strategy: " ++ strategyName))

/-- `StrategyManager.withdraw_from_strategy`, same dispatch shape. -/
def withdrawFromStrategy (adapters : String → ℚ → StrategyResult)
    (strategyName : String) (amount : ℚ) : StrategyResult :=
  if strategyName ∈ registeredStrategies then adapters strategyName amount
  else StrategyResult.mk false (some ("Unknown strategy: " ++ strategyName))

/-- `StrategyManager.get_strategy_apy`: adapter APY if registered, else
`0.0`. -/
def getStrategyApy (apys : String → ℚ) (strategyName : String) : ℚ :=
  if strategyName ∈ registeredStrategies then apys strategyName else 0

/-! ### Fetch boundary (`get_protocol_snapshot`, `get_current_apy`) -/

/-- The snapshot built by the `except` branch of `get_protocol_snapshot`:
`ProtocolSnapshot(0, [], [], 0.0, 0.0, [], datetime.now())`. -/
def fallbackSnapshot : ProtocolSnapshot :=
  { total_policies := 0
    active_policies := []
    open_policies := []
    total_reserves_required := 0
    available_liquidity := 0
    pending_settlements := [] }

/-- `FOMOInsuranceMonitor.get_protocol_snapshot`: the whole `try` body is
abstracted as an `Except` computation; any error reaching the handler is
replaced by the fallback snapshot, so the function itself is total (never
raises to its caller). -/
def getProtocolSnapshot (body : Except String ProtocolSnapshot) :
    ProtocolSnapshot :=
  match body with
  | Except.ok s => s
  | Except.error _ => fallbackSnapshot

/-- `self.leverage_ratio = 3.0` of `INITLoopingStrategy`. -/
def leverageRatio : ℚ := 3

/-- `INITLoopingStrategy.get_current_apy`: the three internal fetches are
abstracted as `Except` computations; on any failure the documented
fallback `8.5` is returned, otherwise
`max(0, supply·L − borrow·(L−1) + rewards)`. -/
def initLoopingGetCurrentApy
    (supplyApy borrowApy mntRewardsApy : Except String ℚ) : ℚ :=
  match (do
      let base_supply_apy ← supplyApy
      let borrow_apy ← borrowApy
      let mnt_rewards_apy ← mntRewardsApy
      Except.ok (max 0 (base_supply_apy * leverageRatio -
        borrow_apy * (leverageRatio - 1) + mnt_rewards_apy))
    : Except String ℚ) with
  | Except.ok apy => apy
  | Except.error _ => 85 / 10

/-- `compounding_boost = 1.15` of `CircuitProtocolStrategy`. -/
def compoundingBoost : ℚ := 115 / 100

/-- `CircuitProtocolStrategy.get_current_apy`: the internal fetch is
abstracted as an `Except` computation; on failure the documented
fallback `6.8` is returned, otherwise `base_apy × 1.15`. -/
def circuitGetCurrentApy (circuitApy : Except String ℚ) : ℚ :=
  match (do
      let base_apy ← circuitApy
      Except.ok (base_apy * compoundingBoost)
    : Except String ℚ) with
  | Except.ok apy => apy
  | Except.error _ => 68 / 10

/-- `MNTStakingStrategy.get_current_apy`: the two internal fetches are
abstracted as `Except` computations; on any failure the documented
fallback `4.5` is returned, otherwise their sum. -/
def mntStakingGetCurrentApy (stakingApy networkFeesApy : Except String ℚ) : ℚ :=
  match (do
      let base_staking_apy ← stakingApy
      let network_fees_apy ← networkFeesApy
      Except.ok (base_staking_apy + network_fees_apy)
    : Except String ℚ) with
  | Except.ok apy => apy
  | Except.error _ => 45 / 10

/-! ### Rebalance execution sum check (`execute_rebalance`,
`set_custom_allocation`) -/

/-- A `deploy_to_strategy` call issued by `execute_rebalance`. -/
structure DepositCall where
  strategy : String
  amount : ℚ
deriving DecidableEq

/-- `sum(target_allocations.values())`. -/
def allocationsTotal (allocs : List (String × ℚ)) : ℚ :=
  (allocs.map Prod.snd).sum

/-- Shallow embedding of the `execute_rebalance` tool of `APY_agent.py`:
reject when `abs(total − 100) > 0.1` before issuing any deposit; otherwise
issue one deposit per strategy whose `target_amount > 0`. -/
def executeRebalance (currentBalance : ℚ) (targetAllocations : List (String × ℚ)) :
    Except String (List DepositCall) :=
  let total_allocation := allocationsTotal targetAllocations
  if |total_allocation - 100| > 1 / 10 then
    Except.error "Error: Target allocations must sum to 100%"
  else
    Except.ok (targetAllocations.filterMap (fun sp =>
      let target_amount := currentBalance * sp.2 / 100
      if target_amount > 0 then some (DepositCall.mk sp.1 target_amount)
      else none))

/-- The validation of `set_custom_allocation` in `fastapi_server.py`:
HTTP 400 when `abs(total − 100) > 0.1`, before any execution. -/
def setCustomAllocation (allocations : List (String × ℚ)) : Except String Unit :=
  if |allocationsTotal allocations - 100| > 1 / 10 then
    Except.error "Allocations must sum to 100%"
  else Except.ok ()

/-! ### Concrete fixtures for the spec scenarios -/

/-- Scenario 1: liquidity `100000`, one active policy reserving `20000`. -/
def scenario1Snapshot : ProtocolSnapshot :=
  { total_policies := 1
    active_policies := [mkActivePolicy 20000 none]
    open_policies := []
    total_reserves_required := 20000
    available_liquidity := 100000
    pending_settlements := [] }

/-- Equal APYs across the three strategies, so the APY spread is `0`. -/
def apysEqual : StrategyApys := ⟨5, 5, 5⟩

/-- A policy whose expiry timestamp equals the evaluation clock `1000`,
so its time to expiry is exactly `0` seconds. -/
def zeroExpiryPolicy : PolicyInfo := mkActivePolicy 20000 (some 1000)

/-- Snapshot holding only `zeroExpiryPolicy`, with reserve figures that
keep the other two trigger conditions false. -/
def zeroExpirySnapshot : ProtocolSnapshot :=
  { total_policies := 1
    active_policies := [zeroExpiryPolicy]
    open_policies := []
    total_reserves_required := 20000
    available_liquidity := 100000
    pending_settlements := [] }

/-- Snapshot whose reserve figures put the reserve ratio below the `0.15`
target, making the first trigger condition fire. -/
def lowReserveSnapshot : ProtocolSnapshot :=
  { total_policies := 1
    active_policies := [mkActivePolicy 1000 none]
    open_policies := []
    total_reserves_required := 1000
    available_liquidity := 100000
    pending_settlements := [] }

/-- Scenario 3: twelve active policies, ample deployable funds. -/
def scenario3Snapshot : ProtocolSnapshot :=
  { total_policies := 12
    active_policies := List.replicate 12 (mkActivePolicy 1000 none)
    open_policies := []
    total_reserves_required := 12000
    available_liquidity := 100000
    pending_settlements := [] }

/-- Rounding to one decimal place, used to read the normalized
percentages of scenario 3 the way the spec quotes them. -/
def roundTo1 (x : ℚ) : ℚ := (round (x * 10) : ℤ) / 10

/-- Scenario 4 strategy APYs: `init_looping` 8.5 (high), `circuit_vault`
6.8 (mid), `mnt_staking` 4.5 (low), listed unsorted. -/
def scenario4Strategies : List (String × ℚ) :=
  [("init_looping", 85 / 10), ("circuit_vault", 68 / 10), ("mnt_staking", 45 / 10)]

/-- A snapshot with negative available liquidity. -/
def negLiquiditySnapshot : ProtocolSnapshot :=
  { total_policies := 0
    active_policies := []
    open_policies := []
    total_reserves_required := 0
    available_liquidity := -100
    pending_settlements := [] }

/-! ### Projection lemmas for `calcIntegratedAllocation`

Each projection below is definitionally equal to the corresponding
let-bound value of the source embedding. -/

theorem calc_required_reserves_eq (snapshot : ProtocolSnapshot)
    (apys : StrategyApys) (minThreshold : ℚ) (now : ℤ) :
    (calcIntegratedAllocation snapshot apys minThreshold now).required_reserves =
      snapshot.total_reserves_required := rfl

theorem calc_safety_buffer_eq (snapshot : ProtocolSnapshot)
    (apys : StrategyApys) (minThreshold : ℚ) (now : ℤ) :
    (calcIntegratedAllocation snapshot apys minThreshold now).safety_buffer =
      snapshot.total_reserves_required * (2 / 10) := rfl

theorem calc_deployable_eq (snapshot : ProtocolSnapshot)
    (apys : StrategyApys) (minThreshold : ℚ) (now : ℤ) :
    (calcIntegratedAllocation snapshot apys minThreshold now).deployable_funds =
      max 0 (snapshot.available_liquidity -
        (snapshot.total_reserves_required +
          snapshot.total_reserves_required * (2 / 10))) := rfl

theorem calc_ratio_eq (snapshot : ProtocolSnapshot)
    (apys : StrategyApys) (minThreshold : ℚ) (now : ℤ) :
    (calcIntegratedAllocation snapshot apys minThreshold now).current_reserve_ratio =
      if snapshot.available_liquidity > 0 then
        (snapshot.total_reserves_required +
          snapshot.total_reserves_required * (2 / 10)) /
          snapshot.available_liquidity
      else 0 := rfl

theorem calc_should_rebalance_eq (snapshot : ProtocolSnapshot)
    (apys : StrategyApys) (minThreshold : ℚ) (now : ℤ) :
    (calcIntegratedAllocation snapshot apys minThreshold now).should_rebalance =
      (decide ((calcIntegratedAllocation snapshot apys minThreshold now).current_reserve_ratio <
          reserveRatioTarget) ||
       decide (StrategyApys.maxVal apys - StrategyApys.minVal apys > minThreshold) ||
       decide ((snapshot.active_policies.filter (isExpiringSoon now)).length > 0)) := rfl

theorem calc_reasons_eq (snapshot : ProtocolSnapshot)
    (apys : StrategyApys) (minThreshold : ℚ) (now : ℤ) :
    (calcIntegratedAllocation snapshot apys minThreshold now).reasons =
      (if decide ((calcIntegratedAllocation snapshot apys minThreshold now).current_reserve_ratio <
          reserveRatioTarget) = true then [Reason.insufficientReserves] else []) ++
      (if decide (StrategyApys.maxVal apys - StrategyApys.minVal apys > minThreshold) = true
        then [Reason.apySpreadDetected] else []) ++
      (if decide ((snapshot.active_policies.filter (isExpiringSoon now)).length > 0) = true
        then [Reason.policiesExpiringSoon] else []) := rfl

theorem calc_optimal_allocation_eq (snapshot : ProtocolSnapshot)
    (apys : StrategyApys) (minThreshold : ℚ) (now : ℤ) :
    (calcIntegratedAllocation snapshot apys minThreshold now).optimal_allocation =
      if (calcIntegratedAllocation snapshot apys minThreshold now).deployable_funds > 0 then
        OptimalAllocation.mk
          ((baseAllocation snapshot.active_policies.length).1 /
            ((baseAllocation snapshot.active_policies.length).1 +
              (baseAllocation snapshot.active_policies.length).2.1 +
              (baseAllocation snapshot.active_policies.length).2.2) * 100)
          ((baseAllocation snapshot.active_policies.length).2.1 /
            ((baseAllocation snapshot.active_policies.length).1 +
              (baseAllocation snapshot.active_policies.length).2.1 +
              (baseAllocation snapshot.active_policies.length).2.2) * 100)
          ((baseAllocation snapshot.active_policies.length).2.2 /
            ((baseAllocation snapshot.active_policies.length).1 +
              (baseAllocation snapshot.active_policies.length).2.1 +
              (baseAllocation snapshot.active_policies.length).2.2) * 100)
      else OptimalAllocation.mk 0 0 0 := rfl

theorem riskMultiplier_pos (n : ℕ) : 0 < riskMultiplier n := by
  unfold riskMultiplier
  split_ifs <;> norm_num

/-- C1: the allocation calculation computes `required_reserves` as the
snapshot total, `safety_buffer` as `0.2` of it, `deployable_funds` as
`max 0 (available_liquidity − their sum)`, and `current_reserve_ratio`
as the guarded quotient; and on scenario 1 (`available_liquidity =
100000`, active-policy reserve sum `20000`) it yields `20000`, `4000`,
`76000`, `0.24`. -/
theorem reserve_calculation_correct (snapshot : ProtocolSnapshot)
    (apys : StrategyApys) (minThreshold : ℚ) (now : ℤ) :
    ((calcIntegratedAllocation snapshot apys minThreshold now).required_reserves =
        snapshot.total_reserves_required ∧
      (calcIntegratedAllocation snapshot apys minThreshold now).safety_buffer =
        snapshot.total_reserves_required * (2 / 10) ∧
      (calcIntegratedAllocation snapshot apys minThreshold now).deployable_funds =
        max 0 (snapshot.available_liquidity -
          (snapshot.total_reserves_required +
            snapshot.total_reserves_required * (2 / 10))) ∧
      (calcIntegratedAllocation snapshot apys minThreshold now).current_reserve_ratio =
        if snapshot.available_liquidity > 0 then
          (snapshot.total_reserves_required +
            snapshot.total_reserves_required * (2 / 10)) /
            snapshot.available_liquidity
        else 0) ∧
    ((scenario1Snapshot.active_policies.map PolicyInfo.required_reserve).sum = 20000 ∧
      (calcIntegratedAllocation scenario1Snapshot apysEqual (5 / 10) 0).required_reserves =
        20000 ∧
      (calcIntegratedAllocation scenario1Snapshot apysEqual (5 / 10) 0).safety_buffer =
        4000 ∧
      (calcIntegratedAllocation scenario1Snapshot apysEqual (5 / 10) 0).deployable_funds =
        76000 ∧
      (calcIntegratedAllocation scenario1Snapshot apysEqual (5 / 10) 0).current_reserve_ratio =
        24 / 100) := by
  refine ⟨⟨rfl, rfl, rfl, rfl⟩, ?_, ?_, ?_, ?_, ?_⟩
  · norm_num [scenario1Snapshot, mkActivePolicy, PolicyInfo.required_reserve,
      PolicyInfo.is_active]
  all_goals
    norm_num [calc_required_reserves_eq, calc_safety_buffer_eq, calc_deployable_eq,
      calc_ratio_eq, scenario1Snapshot]

/-- C9: the fetch boundary recovers every failure locally:
`get_protocol_snapshot` returns the zeroed fallback snapshot on any
internal error and passes a successful snapshot through; and each of the
three strategies returns its documented fallback constant from
`get_current_apy` whenever any of its internal fetches fails — `8.5`
for the looping strategy, `6.8` for the Circuit vault, `4.5` for MNT
staking — and otherwise its documented formula.  All four embeddings
are total functions, so no error reaches the caller. -/
theorem fetch_failures_use_fallbacks :
    (∀ e : String, getProtocolSnapshot (Except.error e) = fallbackSnapshot) ∧
    (∀ s : ProtocolSnapshot, getProtocolSnapshot (Except.ok s) = s) ∧
    (∀ (e : String) (b r : Except String ℚ),
      initLoopingGetCurrentApy (Except.error e) b r = 85 / 10) ∧
    (∀ (s : Except String ℚ) (e : String) (r : Except String ℚ),
      initLoopingGetCurrentApy s (Except.error e) r = 85 / 10) ∧
    (∀ (s b : Except String ℚ) (e : String),
      initLoopingGetCurrentApy s b (Except.error e) = 85 / 10) ∧
    (∀ sv bv rv : ℚ,
      initLoopingGetCurrentApy (Except.ok sv) (Except.ok bv) (Except.ok rv) =
        max 0 (sv * leverageRatio - bv * (leverageRatio - 1) + rv)) ∧
    (∀ e : String, circuitGetCurrentApy (Except.error e) = 68 / 10) ∧
    (∀ v : ℚ, circuitGetCurrentApy (Except.ok v) = v * compoundingBoost) ∧
    (∀ (e : String) (f : Except String ℚ),
      mntStakingGetCurrentApy (Except.error e) f = 45 / 10) ∧
    (∀ (s : Except String ℚ) (e : String),
      mntStakingGetCurrentApy s (Except.error e) = 45 / 10) ∧
    (∀ sv fv : ℚ,
      mntStakingGetCurrentApy (Except.ok sv) (Except.ok fv) = sv + fv) := by
  refine ⟨fun e => rfl, fun s => rfl, fun e b r => rfl, ?_, ?_, fun sv bv rv => rfl,
    fun e => rfl, fun v => rfl, fun e f => rfl, ?_, fun sv fv => rfl⟩
  · intro s e r
    cases s <;> rfl
  · intro s b e
    cases s <;> cases b <;> rfl
  · intro s e
    cases s <;> rfl

/-- C10: for a strategy name outside the registered three, the manager
returns the structured `Unknown strategy` failure from both `deploy` and
`withdraw` without consulting any adapter (the result is independent of
the adapter behaviour), and `get_strategy_apy` returns `0.0`. -/
theorem unknown_strategy_handling (strategyName : String)
    (h : strategyName ∉ registeredStrategies)
    (depositAdapters withdrawAdapters altAdapters : String → ℚ → StrategyResult)
    (apys : String → ℚ) (amount : ℚ) :
    deployToStrategy depositAdapters strategyName amount =
      StrategyResult.mk false (some ("Unknown strategy: " ++ strategyName)) ∧
    withdrawFromStrategy withdrawAdapters strategyName amount =
      StrategyResult.mk false (some ("Unknown strategy: " ++ strategyName)) ∧
    getStrategyApy apys strategyName = 0 ∧
    deployToStrategy depositAdapters strategyName amount =
      deployToStrategy altAdapters strategyName amount ∧
    withdrawFromStrategy withdrawAdapters strategyName amount =
      withdrawFromStrategy altAdapters strategyName amount := by
  simp [deployToStrategy, withdrawFromStrategy, getStrategyApy, h]

/-- Witness for C10 at the concrete unregistered name `aave_lending`. -/
theorem unknown_strategy_handling_witness :
    deployToStrategy (fun _ _ => StrategyResult.mk true none) "aave_lending" 50 =
      StrategyResult.mk false (some "Unknown strategy: aave_lending") := by
  have h := unknown_strategy_handling "aave_lending"
    (by simp [registeredStrategies])
    (fun _ _ => StrategyResult.mk true none) (fun _ _ => StrategyResult.mk true none)
    (fun _ _ => StrategyResult.mk false none) (fun _ => 0) 50
  exact h.1

/-- Counterexample to C2 as stated: `zeroExpiryPolicy` is an active
policy with `time_to_expiry = 0`, and `0 < 3600`, so under the claim the
expiring-soon condition holds and `should_rebalance` would have to be
true with one reason; the code instead reports no rebalance and an empty
reason list, because the truthiness test `p.time_to_expiry and ...`
treats `0` as falsy and skips the policy.  The other two conditions are
false here (reserve ratio `0.24 ≥ 0.15`, APY spread `0 ≤ 0.5`). -/
theorem rebalance_trigger_zero_expiry_counterexample :
    zeroExpiryPolicy ∈ zeroExpirySnapshot.active_policies ∧
    zeroExpiryPolicy.time_to_expiry 1000 = some 0 ∧ (0 : ℤ) < 3600 ∧
    (calcIntegratedAllocation zeroExpirySnapshot apysEqual (5 / 10) 1000).should_rebalance =
      false ∧
    (calcIntegratedAllocation zeroExpirySnapshot apysEqual (5 / 10) 1000).reasons = [] := by
  refine ⟨by simp [zeroExpirySnapshot], ?_, by norm_num, ?_, ?_⟩
  · norm_num [zeroExpiryPolicy, mkActivePolicy, PolicyInfo.time_to_expiry]
  all_goals
    norm_num [calcIntegratedAllocation, zeroExpirySnapshot, apysEqual, reserveRatioTarget,
      StrategyApys.maxVal, StrategyApys.minVal, isExpiringSoon, zeroExpiryPolicy,
      mkActivePolicy, PolicyInfo.time_to_expiry]

/-- C2 (amended): `should_rebalance` holds iff at least one of the three
trigger conditions holds and `reasons` carries exactly one entry per true
condition in the fixed order, where the third condition counts an active
policy only when its `time_to_expiry` is defined, nonzero, and below the
`3600`-second window: a policy whose `time_to_expiry` equals `0` does not
count, since the truthiness check of the source excludes `0`.  The final
conjunct states that exclusion explicitly. -/
theorem rebalance_trigger_amended (snapshot : ProtocolSnapshot)
    (apys : StrategyApys) (minThreshold : ℚ) (now : ℤ) :
    ((calcIntegratedAllocation snapshot apys minThreshold now).should_rebalance = true ↔
      ((calcIntegratedAllocation snapshot apys minThreshold now).current_reserve_ratio <
          reserveRatioTarget ∨
        StrategyApys.maxVal apys - StrategyApys.minVal apys > minThreshold ∨
        ∃ p ∈ snapshot.active_policies, isExpiringSoon now p = true)) ∧
    (calcIntegratedAllocation snapshot apys minThreshold now).reasons =
      (if (calcIntegratedAllocation snapshot apys minThreshold now).current_reserve_ratio <
          reserveRatioTarget then [Reason.insufficientReserves] else []) ++
      (if StrategyApys.maxVal apys - StrategyApys.minVal apys > minThreshold
        then [Reason.apySpreadDetected] else []) ++
      (if ∃ p ∈ snapshot.active_policies, isExpiringSoon now p = true
        then [Reason.policiesExpiringSoon] else []) ∧
    (∀ p : PolicyInfo, p.time_to_expiry now = some 0 → isExpiringSoon now p = false) := by
  have hc3 : (0 < (snapshot.active_policies.filter (isExpiringSoon now)).length) ↔
      (∃ p ∈ snapshot.active_policies, isExpiringSoon now p = true) := by
    simp [List.length_pos, List.filter_eq_nil_iff]
  refine ⟨?_, ?_, ?_⟩
  · rw [calc_should_rebalance_eq]
    simp [hc3, or_assoc]
  · rw [calc_reasons_eq]
    simp only [decide_eq_true_eq]
    rw [if_congr hc3 rfl rfl]
  · intro p hp
    simp [isExpiringSoon, hp]

/-- Witness for C2 (amended): on `lowReserveSnapshot` the reserve ratio
`0.012` is below the `0.15` target, so the rebalance fires. -/
theorem rebalance_trigger_amended_witness :
    (calcIntegratedAllocation lowReserveSnapshot apysEqual (5 / 10) 0).should_rebalance =
      true := by
  exact (rebalance_trigger_amended lowReserveSnapshot apysEqual (5 / 10) 0).1.mpr
    (Or.inl (by norm_num [calc_ratio_eq, lowReserveSnapshot, reserveRatioTarget]))

/-- C3: whenever `deployable_funds > 0`, the normalized percentages sum
to `100` within `1e-6` (here: exactly); whenever `deployable_funds ≤ 0`,
every allocation entry is `0`. -/
theorem optimal_allocation_sum (snapshot : ProtocolSnapshot)
    (apys : StrategyApys) (minThreshold : ℚ) (now : ℤ) :
    (0 < (calcIntegratedAllocation snapshot apys minThreshold now).deployable_funds →
      |OptimalAllocation.total
          (calcIntegratedAllocation snapshot apys minThreshold now).optimal_allocation -
        100| ≤ 1 / 1000000) ∧
    ((calcIntegratedAllocation snapshot apys minThreshold now).deployable_funds ≤ 0 →
      (calcIntegratedAllocation snapshot apys minThreshold now).optimal_allocation =
        OptimalAllocation.mk 0 0 0) := by
  constructor
  · intro h
    rw [calc_optimal_allocation_eq, if_pos h]
    have hm := riskMultiplier_pos snapshot.active_policies.length
    rw [OptimalAllocation.total]
    unfold baseAllocation
    dsimp only
    have hsum : (45 / 100 * riskMultiplier snapshot.active_policies.length) /
          (45 / 100 * riskMultiplier snapshot.active_policies.length + 35 / 100 + 20 / 100) *
            100 +
        (35 / 100 : ℚ) /
          (45 / 100 * riskMultiplier snapshot.active_policies.length + 35 / 100 + 20 / 100) *
            100 +
        (20 / 100 : ℚ) /
          (45 / 100 * riskMultiplier snapshot.active_policies.length + 35 / 100 + 20 / 100) *
            100 = 100 := by
      field_simp
      ring
    rw [hsum]
    norm_num
  · intro h
    rw [calc_optimal_allocation_eq, if_neg (by exact not_lt.mpr h)]

/-- Witness for C3: scenario 1 has `deployable_funds = 76000 > 0` and a
sum within tolerance; the fallback snapshot has `deployable_funds = 0`
and the all-zero allocation. -/
theorem optimal_allocation_sum_witness :
    |OptimalAllocation.total
        (calcIntegratedAllocation scenario1Snapshot apysEqual (5 / 10) 0).optimal_allocation -
      100| ≤ 1 / 1000000 ∧
    (calcIntegratedAllocation fallbackSnapshot apysEqual (5 / 10) 0).optimal_allocation =
      OptimalAllocation.mk 0 0 0 := by
  constructor
  · exact (optimal_allocation_sum scenario1Snapshot apysEqual (5 / 10) 0).1
      (by norm_num [calc_deployable_eq, scenario1Snapshot])
  · exact (optimal_allocation_sum fallbackSnapshot apysEqual (5 / 10) 0).2
      (by norm_num [calc_deployable_eq, fallbackSnapshot])

/-- C4: the risk multiplier is `0.8` above ten active policies, `1.2`
below three, else `1.0`; it scales only the first base weight `0.45`,
the other two staying `0.35` and `0.20`; and for twelve active policies
the base weights are `(0.36, 0.35, 0.20)` and the normalized allocation
rounds to `(39.6, 38.5, 22.0)` percent at one decimal. -/
theorem risk_multiplier_and_weights :
    (∀ n : ℕ, n > 10 → riskMultiplier n = 8 / 10) ∧
    (∀ n : ℕ, n < 3 → riskMultiplier n = 12 / 10) ∧
    (∀ n : ℕ, ¬n > 10 → ¬n < 3 → riskMultiplier n = 1) ∧
    (∀ n : ℕ, baseAllocation n = (45 / 100 * riskMultiplier n, 35 / 100, 20 / 100)) ∧
    baseAllocation 12 = (36 / 100, 35 / 100, 20 / 100) ∧
    (calcIntegratedAllocation scenario3Snapshot apysEqual (5 / 10) 0).optimal_allocation =
      OptimalAllocation.mk (3600 / 91) (3500 / 91) (2000 / 91) ∧
    roundTo1 (3600 / 91) = 396 / 10 ∧
    roundTo1 (3500 / 91) = 385 / 10 ∧
    roundTo1 (2000 / 91) = 22 := by
  refine ⟨?_, ?_, ?_, fun n => rfl, ?_, ?_, ?_⟩
  · intro n hn
    simp [riskMultiplier, hn]
  · intro n hn
    have h10 : ¬n > 10 := by omega
    simp [riskMultiplier, hn, h10]
  · intro n h10 h3
    simp [riskMultiplier, h10, h3]
  · norm_num [baseAllocation, riskMultiplier]
  · rw [calc_optimal_allocation_eq]
    norm_num [calc_deployable_eq, scenario3Snapshot, baseAllocation, riskMultiplier]
  · norm_num [roundTo1, round_eq]

/-- Witness for C4 at the concrete counts `12`, `1`, and `5`. -/
theorem risk_multiplier_and_weights_witness :
    riskMultiplier 12 = 8 / 10 ∧ riskMultiplier 1 = 12 / 10 ∧ riskMultiplier 5 = 1 := by
  refine ⟨risk_multiplier_and_weights.1 12 (by norm_num),
    risk_multiplier_and_weights.2.1 1 (by norm_num),
    risk_multiplier_and_weights.2.2.1 5 (by norm_num) (by norm_num)⟩

/-- C5: while the remaining shortfall is positive the loop issues, for
the next strategy in ascending-APY order, a withdrawal of
`min(remaining, shortfall × 0.5)`, decrementing the remaining shortfall
by that amount only when the call succeeds and moving on unchanged when
it fails; once the remaining shortfall is nonpositive no further call is
issued.  On scenario 4 (`shortfall = 5000`, all withdrawals succeed) the
low-APY strategy `mnt_staking` gives `2500`, the mid-APY
`circuit_vault` gives `2500`, and the high-APY `init_looping` receives
no withdraw call. -/
theorem reserve_topup_order_and_amounts :
    (∀ (shortfall remaining : ℚ) (name : String) (ok : Bool)
        (rest : List (String × Bool)), 0 < remaining →
      withdrawLoop shortfall remaining ((name, ok) :: rest) =
        WithdrawCall.mk name (min remaining (shortfall * (5 / 10))) ok ::
          withdrawLoop shortfall
            (if ok then remaining - min remaining (shortfall * (5 / 10)) else remaining)
            rest) ∧
    (∀ (shortfall : ℚ) (l : List (String × Bool)) (remaining : ℚ),
      remaining ≤ 0 → withdrawLoop shortfall remaining l = []) ∧
    ensureAdequateReserves 5000 0 scenario4Strategies (fun _ => true) =
      [WithdrawCall.mk "mnt_staking" 2500 true,
       WithdrawCall.mk "circuit_vault" 2500 true] ∧
    "init_looping" ∉
      (ensureAdequateReserves 5000 0 scenario4Strategies (fun _ => true)).map
        WithdrawCall.strategy := by
  have hstep : ∀ (shortfall remaining : ℚ) (name : String) (ok : Bool)
      (rest : List (String × Bool)), 0 < remaining →
      withdrawLoop shortfall remaining ((name, ok) :: rest) =
        WithdrawCall.mk name (min remaining (shortfall * (5 / 10))) ok ::
          withdrawLoop shortfall
            (if ok then remaining - min remaining (shortfall * (5 / 10)) else remaining)
            rest := by
    intro shortfall remaining name ok rest h
    rw [withdrawLoop, if_neg (not_le.mpr h)]
  have hstop : ∀ (shortfall : ℚ) (l : List (String × Bool)) (remaining : ℚ),
      remaining ≤ 0 → withdrawLoop shortfall remaining l = [] := by
    intro shortfall l remaining h
    cases l with
    | nil => rw [withdrawLoop]
    | cons x rest =>
      obtain ⟨name, ok⟩ := x
      rw [withdrawLoop, if_pos h]
  have hscen : ensureAdequateReserves 5000 0 scenario4Strategies (fun _ => true) =
      [WithdrawCall.mk "mnt_staking" 2500 true,
       WithdrawCall.mk "circuit_vault" 2500 true] := by
    norm_num [ensureAdequateReserves, scenario4Strategies, sortAscApy, insertAscApy,
      withdrawLoop]
  refine ⟨hstep, hstop, hscen, ?_⟩
  rw [hscen]
  simp

/-- Witness for C5 at a concrete single-strategy list with a positive
remaining shortfall. -/
theorem reserve_topup_order_and_amounts_witness :
    withdrawLoop 5000 5000 [("mnt_staking", true)] =
      [WithdrawCall.mk "mnt_staking" 2500 true] := by
  have h := reserve_topup_order_and_amounts.1 5000 5000 "mnt_staking" true []
    (by norm_num)
  rw [h]
  norm_num [withdrawLoop]

theorem successfulTotal_cons (c : WithdrawCall) (calls : List WithdrawCall) :
    successfulTotal (c :: calls) =
      (if c.success then c.amount else 0) + successfulTotal calls := by
  by_cases h : c.success <;> simp [successfulTotal, List.filter_cons, h]

theorem withdrawLoop_successfulTotal_le (shortfall : ℚ) (l : List (String × Bool)) :
    ∀ remaining : ℚ, 0 ≤ remaining →
      successfulTotal (withdrawLoop shortfall remaining l) ≤ remaining := by
  induction l with
  | nil =>
    intro remaining h
    rw [withdrawLoop]
    simpa [successfulTotal] using h
  | cons x rest ih =>
    intro remaining h
    obtain ⟨name, ok⟩ := x
    by_cases hr : remaining ≤ 0
    · rw [withdrawLoop, if_pos hr]
      simpa [successfulTotal] using h
    · rw [withdrawLoop, if_neg hr]
      have hmin : min remaining (shortfall * (5 / 10)) ≤ remaining := min_le_left _ _
      cases ok with
      | false =>
        simp only [successfulTotal_cons]
        simpa using ih remaining h
      | true =>
        simp only [successfulTotal_cons]
        have hle := ih (remaining - min remaining (shortfall * (5 / 10))) (by linarith)
        simp only [if_true, ite_true]
        simp
        linarith

/-- C6: for every shortfall and every mix of per-strategy withdraw
outcomes, the sum of the successfully withdrawn amounts in the reserve
top-up phase never exceeds the computed shortfall
`requiredAmount − currentBalance`. -/
theorem phase1_withdrawals_bounded (requiredAmount currentBalance : ℚ)
    (strategyApys : List (String × ℚ)) (outcomes : String → Bool)
    (h : currentBalance < requiredAmount) :
    successfulTotal
        (ensureAdequateReserves requiredAmount currentBalance strategyApys outcomes) ≤
      requiredAmount - currentBalance := by
  rw [ensureAdequateReserves, if_pos h]
  exact withdrawLoop_successfulTotal_le _ _ _ (by linarith)

/-- Witness for C6 on scenario 4 with every withdrawal succeeding. -/
theorem phase1_withdrawals_bounded_witness :
    successfulTotal (ensureAdequateReserves 5000 0 scenario4Strategies (fun _ => true)) ≤
      5000 - 0 :=
  phase1_withdrawals_bounded 5000 0 scenario4Strategies (fun _ => true) (by norm_num)

/-- Counterexample to C7 as stated: the source has no negative-liquidity
guard, so on a snapshot with `available_liquidity = −100` the allocation
calculation does not fail — it returns a complete set of reserve figures
(`deployable_funds = 0`, `current_reserve_ratio = 0` through the
`total_funds > 0` degenerate branch, plus a rebalance verdict), rather
than raising any `InvariantViolation`. -/
theorem negative_liquidity_counterexample :
    negLiquiditySnapshot.available_liquidity < 0 ∧
    calcIntegratedAllocation negLiquiditySnapshot apysEqual (5 / 10) 0 =
      { should_rebalance := true
        reasons := [Reason.insufficientReserves]
        total_funds := -100
        required_reserves := 0
        safety_buffer := 0
        deployable_funds := 0
        current_reserve_ratio := 0
        strategy_apys := apysEqual
        optimal_allocation := OptimalAllocation.mk 0 0 0
        upcoming_expirations := 0 } := by
  constructor
  · norm_num [negLiquiditySnapshot]
  · norm_num [calcIntegratedAllocation, negLiquiditySnapshot, apysEqual,
      reserveRatioTarget, StrategyApys.maxVal, StrategyApys.minVal, isExpiringSoon]

/-- C7 (amended): for snapshots with `available_liquidity < 0` the
calculation proceeds without error, with `current_reserve_ratio = 0`
(the `total_funds > 0` guard takes its degenerate branch),
`deployable_funds` clamped by `max 0`, and the reserve figures still
produced; no `InvariantViolation` exists in the code. -/
theorem negative_liquidity_amended (snapshot : ProtocolSnapshot)
    (apys : StrategyApys) (minThreshold : ℚ) (now : ℤ)
    (h : snapshot.available_liquidity < 0) :
    (calcIntegratedAllocation snapshot apys minThreshold now).current_reserve_ratio = 0 ∧
    (calcIntegratedAllocation snapshot apys minThreshold now).deployable_funds =
      max 0 (snapshot.available_liquidity -
        (snapshot.total_reserves_required +
          snapshot.total_reserves_required * (2 / 10))) ∧
    (calcIntegratedAllocation snapshot apys minThreshold now).required_reserves =
      snapshot.total_reserves_required := by
  refine ⟨?_, rfl, rfl⟩
  rw [calc_ratio_eq, if_neg (by linarith)]

/-- Witness for C7 (amended) at the concrete negative-liquidity
snapshot. -/
theorem negative_liquidity_amended_witness :
    (calcIntegratedAllocation negLiquiditySnapshot apysEqual (5 / 10) 0).current_reserve_ratio =
      0 :=
  (negative_liquidity_amended negLiquiditySnapshot apysEqual (5 / 10) 0
    (by norm_num [negLiquiditySnapshot])).1

/-- Counterexample to C8 as stated: the allocation `init_looping ↦
100.05` does not sum to `100`, yet the `0.1`-tolerance check accepts it
and a deposit call is issued, so not every allocation failing to sum to
100% is rejected. -/
theorem allocation_sum_tolerance_counterexample :
    allocationsTotal [("init_looping", 10005 / 100)] ≠ 100 ∧
    executeRebalance 1000 [("init_looping", 10005 / 100)] =
      Except.ok [DepositCall.mk "init_looping" (2001 / 2)] := by
  constructor
  · norm_num [allocationsTotal]
  · norm_num [executeRebalance, allocationsTotal, lt_abs, List.filterMap]

/-- C8 (amended): the execution rejects a target allocation, with an
error and zero deposit calls, exactly when its sum differs from `100` by
more than the `0.1` tolerance, and the API validation rejects under the
same condition; every allocation within the tolerance — whether or not
it sums exactly to `100` — is accepted by both entry points, and the
deposits proceed, one call per strategy with a positive target amount. -/
theorem allocation_sum_check_amended (currentBalance : ℚ)
    (allocs : List (String × ℚ)) :
    (|allocationsTotal allocs - 100| > 1 / 10 →
      executeRebalance currentBalance allocs =
        Except.error "Error: Target allocations must sum to 100%" ∧
      setCustomAllocation allocs = Except.error "Allocations must sum to 100%") ∧
    (|allocationsTotal allocs - 100| ≤ 1 / 10 →
      setCustomAllocation allocs = Except.ok () ∧
      ∃ calls : List DepositCall,
        executeRebalance currentBalance allocs = Except.ok calls ∧
        ∀ sp ∈ allocs, 0 < currentBalance * sp.2 / 100 →
          DepositCall.mk sp.1 (currentBalance * sp.2 / 100) ∈ calls) := by
  constructor
  · intro h
    constructor
    · rw [executeRebalance]
      simp only [if_pos h]
    · rw [setCustomAllocation, if_pos h]
  · intro h
    have hno : ¬|allocationsTotal allocs - 100| > 1 / 10 := not_lt.mpr h
    refine ⟨by rw [setCustomAllocation, if_neg hno], allocs.filterMap (fun sp =>
        if currentBalance * sp.2 / 100 > 0 then
          some (DepositCall.mk sp.1 (currentBalance * sp.2 / 100))
        else none), ?_, ?_⟩
    · rw [executeRebalance]
      simp only [if_neg hno]
    · intro sp hsp hpos
      simp only [List.mem_filterMap]
      exact ⟨sp, hsp, by rw [if_pos hpos]⟩

/-- Witness for C8 (amended): a `120%` allocation is rejected by both
entry points, a `99.95%` allocation (within tolerance but not exactly
`100%`) is accepted, and a `100%` allocation is accepted with its
deposit issued. -/
theorem allocation_sum_check_amended_witness :
    setCustomAllocation [("init_looping", 120)] =
      Except.error "Allocations must sum to 100%" ∧
    setCustomAllocation [("mnt_staking", 9995 / 100)] = Except.ok () ∧
    ∃ calls : List DepositCall,
      executeRebalance 1000 [("circuit_vault", 100)] = Except.ok calls ∧
      ∀ sp ∈ [(("circuit_vault" : String), (100 : ℚ))], 0 < (1000 : ℚ) * sp.2 / 100 →
        DepositCall.mk sp.1 (1000 * sp.2 / 100) ∈ calls := by
  refine ⟨?_, ?_, ?_⟩
  · exact ((allocation_sum_check_amended 0 [("init_looping", 120)]).1
      (by norm_num [allocationsTotal, lt_abs])).2
  · exact ((allocation_sum_check_amended 0 [("mnt_staking", 9995 / 100)]).2
      (by norm_num [allocationsTotal, abs_le])).1
  · exact ((allocation_sum_check_amended 1000 [("circuit_vault", 100)]).2
      (by norm_num [allocationsTotal, abs_le])).2

end FomoVault
